import Mathlib

/-!
Verification of the jt808-server-go device-state and codec core.

This file gives a shallow embedding, in Lean 4, of the Go sources under
`internal/protocol/model` (GeoMeta bit codec, battery / WiFi / cell-tower
sub-decoders, the 0x0200 location-report codec), `internal/storage`
(the dual-indexed device cache and the generic persister), and settles the
frozen specification claims against it.

Conventions of the embedding:
- Go byte slices become `List Nat` (each element intended `< 256`; theorems
  carry the bound as a hypothesis where it matters).
- Go machine integers become `Nat` with explicit `% 2^w` where overflow can
  occur; `int8` results are `Int` via `toInt8`.
- Pointer-receiver decoders that mutate their receiver become functions from
  the prior value to the new value, returning the Go error as `Option String`
  (`none` = Go `nil`).
- Mutexes are dropped: the embedding is of the sequential semantics of each
  operation, which is what the claims quantify over.
-/

namespace JT808

/-- Go `int8(b)` reinterpretation of a byte: two's complement. -/
def toInt8 (b : Nat) : Int :=
  if b < 128 then (b : Int) else (b : Int) - 256

/-- Big-endian value of a byte list (used for `binary.BigEndian.Uint32` and
the `hex.Read*Word` helpers). -/
def beVal (bs : List Nat) : Nat :=
  bs.foldl (fun acc b => acc * 256 + b) 0

/-- Lookup in an association list with Go-map assignment semantics: a later
binding for the same key overwrites an earlier one.  This is the semantics of
`m[k] = v` performed left to right over the entry list. -/
def mapOf (es : List (Nat × List Nat)) (t : Nat) : Option (List Nat) :=
  es.foldl (fun acc e => if e.1 = t then some e.2 else acc) none

/-! ## GeoMeta bit-field codec (`device.go`)

The bit-mask constants are transcribed from the `const` block in
`device.go`; note that `loadStatusBit` is a two-bit mask. -/

def accBit : Nat := 0b00000000000000000000000000000001
def locationStatusBit : Nat := 0b00000000000000000000000000000010
def LatitudeTypeBit : Nat := 0b00000000000000000000000000000100
def LongitudeTypeBit : Nat := 0b00000000000000000000000000001000
def operatingStatusBit : Nat := 0b00000000000000000000000000010000
def gisEncryptionStatusBit : Nat := 0b00000000000000000000000000100000
def loadStatusBit : Nat := 0b00000000000000000000001100000000
def fuelSystemStatusBit : Nat := 0b00000000000000000000010000000000
def alternatorSystemStatusBit : Nat := 0b00000000000000000000100000000000
def doorLockedStatusBit : Nat := 0b00000000000000000001000000000000
def frontDoorStatusBit : Nat := 0b00000000000000000010000000000000
def midDoorStatusBit : Nat := 0b00000000000000000100000000000000
def backDoorStatusBit : Nat := 0b00000000000000001000000000000000
def driverDoorStatusBit : Nat := 0b00000000000000010000000000000000
def customDoorStatusBit : Nat := 0b00000000000000100000000000000000
def gpsLocationStatusBit : Nat := 0b00000000000001000000000000000000
def beidouLocatlonStatusBit : Nat := 0b00000000000010000000000000000000
def glonassLocationStatusBit : Nat := 0b00000000000100000000000000000000
def galileoLocationStatusBit : Nat := 0b00000000001000000000000000000000
def drivingStatusBit : Nat := 0b00000000010000000000000000000000

/-- The unpacked 32-bit status word.  Every field is a Go `uint8`; the
embedding uses `Nat` and carries the 0/1 (resp. 0..3) bounds as hypotheses
in the theorems. -/
structure GeoMeta where
  ACCStatus : Nat
  LocationStatus : Nat
  LatitudeType : Nat
  LongitudeType : Nat
  OperatingStatus : Nat
  GeoEncryptionStatus : Nat
  LoadStatus : Nat
  FuelSystemStatus : Nat
  AlternatorSystemStatus : Nat
  DoorLockedStatus : Nat
  FrontDoorStatus : Nat
  MidDoorStatus : Nat
  BackDoorStatus : Nat
  DriverDoorStatus : Nat
  CustomDoorStatus : Nat
  GPSLocationStatus : Nat
  BeidouLocationStatus : Nat
  GLONASSLocationStatus : Nat
  GalileoLocationStatus : Nat
  DrivingStatus : Nat
  deriving Repr, DecidableEq

/-- `GeoMeta.Decode`: unpack the status word by mask-and-shift, exactly the
expressions of the Go source (the `% 256` is the `uint8(...)` conversion,
an identity here since every extracted value is at most 3). -/
def GeoMeta.decode (status : Nat) : GeoMeta where
  ACCStatus := (status &&& accBit) % 256
  LocationStatus := ((status &&& locationStatusBit) >>> 1) % 256
  LatitudeType := ((status &&& LatitudeTypeBit) >>> 2) % 256
  LongitudeType := ((status &&& LongitudeTypeBit) >>> 3) % 256
  OperatingStatus := ((status &&& operatingStatusBit) >>> 4) % 256
  GeoEncryptionStatus := ((status &&& gisEncryptionStatusBit) >>> 5) % 256
  LoadStatus := ((status &&& loadStatusBit) >>> 8) % 256
  FuelSystemStatus := ((status &&& fuelSystemStatusBit) >>> 10) % 256
  AlternatorSystemStatus := ((status &&& alternatorSystemStatusBit) >>> 11) % 256
  DoorLockedStatus := ((status &&& doorLockedStatusBit) >>> 12) % 256
  FrontDoorStatus := ((status &&& frontDoorStatusBit) >>> 13) % 256
  MidDoorStatus := ((status &&& midDoorStatusBit) >>> 14) % 256
  BackDoorStatus := ((status &&& backDoorStatusBit) >>> 15) % 256
  DriverDoorStatus := ((status &&& driverDoorStatusBit) >>> 16) % 256
  CustomDoorStatus := ((status &&& customDoorStatusBit) >>> 17) % 256
  GPSLocationStatus := ((status &&& gpsLocationStatusBit) >>> 18) % 256
  BeidouLocationStatus := ((status &&& beidouLocatlonStatusBit) >>> 19) % 256
  GLONASSLocationStatus := ((status &&& glonassLocationStatusBit) >>> 20) % 256
  GalileoLocationStatus := ((status &&& galileoLocationStatusBit) >>> 21) % 256
  DrivingStatus := ((status &&& drivingStatusBit) >>> 22) % 256

/-- `GeoMeta.Encode`: pack the fields back.  The Go source accumulates into a
`uint32`, so the sum is reduced `% 2^32`; each addend is `uint32(field) << k`
where the field is a `uint8`, modelled by `% 256` before the shift.  NOTE:
the source shifts `LongitudeType` by 2 and `LatitudeType` by 3, the mirror
image of the decode direction. -/
def GeoMeta.encode (g : GeoMeta) : Nat :=
  ((g.ACCStatus % 256)
    + (g.LocationStatus % 256) <<< 1
    + (g.LongitudeType % 256) <<< 2
    + (g.LatitudeType % 256) <<< 3
    + (g.OperatingStatus % 256) <<< 4
    + (g.GeoEncryptionStatus % 256) <<< 5
    + (g.LoadStatus % 256) <<< 8
    + (g.FuelSystemStatus % 256) <<< 10
    + (g.AlternatorSystemStatus % 256) <<< 11
    + (g.DoorLockedStatus % 256) <<< 12
    + (g.FrontDoorStatus % 256) <<< 13
    + (g.MidDoorStatus % 256) <<< 14
    + (g.BackDoorStatus % 256) <<< 15
    + (g.DriverDoorStatus % 256) <<< 16
    + (g.CustomDoorStatus % 256) <<< 17
    + (g.GPSLocationStatus % 256) <<< 18
    + (g.BeidouLocationStatus % 256) <<< 19
    + (g.GLONASSLocationStatus % 256) <<< 20
    + (g.GalileoLocationStatus % 256) <<< 21
    + (g.DrivingStatus % 256) <<< 22) % 2 ^ 32

/-! ## Battery / WiFi / LBS sub-decoders (`device.go`) -/

/-- `byteToDBM`: the Go source computes `-90.0 + (float64(b)/255.0)*60.0` in
`float64` and converts with `int8(...)`, which truncates toward zero.  For
every byte value `b < 256` the `float64` computation truncates to the same
integer as the exact rational `(60*b - 22950)/255` (checked exhaustively over
all 256 inputs), so the faithful integer model is truncated division. -/
def byteToDBM (b : Nat) : Int :=
  Int.tdiv (60 * (b : Int) - 22950) 255

/-- Uppercase hexadecimal digit, as produced by Go `fmt.Sprintf("%02X", b)`. -/
def hexDigit (n : Nat) : Char :=
  if n < 10 then Char.ofNat (48 + n) else Char.ofNat (55 + n)

/-- Render one byte as two uppercase hex digits (`%02X`). -/
def byteHex (b : Nat) : List Char :=
  [hexDigit (b / 16 % 16), hexDigit (b % 16)]

/-- Render a byte list as uppercase hex with no separators. -/
def macString (bs : List Nat) : String :=
  (bs.flatMap byteHex).asString

structure WifiInfo where
  MAC : String
  RSSI : Int
  deriving Repr, DecidableEq

structure LBSInfo where
  MCC : Nat
  MNC : Nat
  LAC : Nat
  CellID : Nat
  RSSI : Int
  deriving Repr, DecidableEq

structure Battery where
  BatteryLevel : Int
  Charging : Bool
  deriving Repr, DecidableEq

/-- `Battery.Decode`: the receiver is passed in and returned unchanged on
error (the Go method assigns fields only after the length guard). -/
def Battery.decode (b : Battery) (data : List Nat) : Battery × Option String :=
  if data.length < 2 then (b, some "empty battery data")
  else ({ Charging := data.headD 0 = 1, BatteryLevel := toInt8 (data.getD 1 0) }, none)

/-- `WifiList.Decode`: `wifis` is the prior value of the receiver slice,
returned unchanged when the method errors before the `make`/loop.  On success
the Go loop fills index `i` from the 7-byte window `data[1+7i : 8+7i]`; note
the source takes the RSSI from `apData[0]` (the first MAC byte) and the MAC
from `apData[0..5]`, leaving `apData[6]` unread. -/
def WifiList.decode (wifis : List WifiInfo) (data : List Nat) :
    List WifiInfo × Option String :=
  if data.length < 1 then (wifis, some "empty wifi data")
  else
    let apCount := data.headD 0
    if data.length ≠ 1 + apCount * 7 then (wifis, some "invalid wifi data length")
    else
      (((List.range apCount).map (fun i =>
        let apData := (data.drop (1 + i * 7)).take 7
        { RSSI := byteToDBM (apData.getD 0 0)
          MAC := macString (apData.take 6) })), none)

/-- `LBSList.Decode`: as for WiFi, with 10-byte records
`MCC(2, BE) MNC(1) LAC(2, BE) CellID(4, BE) RSSI(1, signed)`. -/
def LBSList.decode (lbss : List LBSInfo) (data : List Nat) :
    List LBSInfo × Option String :=
  if data.length < 1 then (lbss, some "empty wifi data")
  else
    let cellCount := data.headD 0
    if data.length ≠ 1 + cellCount * 10 then (lbss, some "invalid lbs data length")
    else
      (((List.range cellCount).map (fun i =>
        let lbsData := (data.drop (1 + i * 10)).take 10
        { MCC := (lbsData.getD 0 0) <<< 8 ||| lbsData.getD 1 0
          MNC := lbsData.getD 2 0
          LAC := (lbsData.getD 3 0) <<< 8 ||| lbsData.getD 4 0
          CellID := beVal ((lbsData.drop 5).take 4)
          RSSI := toInt8 (lbsData.getD 9 0) })), none)

/-! ## Location report codec: `Msg0200` (`msg0200.go`)

The fixed-header field readers/writers (`hex.ReadDoubleWord`, `hex.ReadWord`,
`hex.ReadBCD` and their `Write*` counterparts) live in the repository's
`internal/codec/hex` package, which is not among the provided sources; they
are modelled from the spec below.  The TLV loop, by contrast, is translated
directly from `Msg0200.Decode`/`Msg0200.Encode`. -/

/-- Result of running a Go decode: a normal `(value, nil)` return, a normal
`(zero, err)` return, or a runtime panic (out-of-range slice). -/
inductive DecodeOutcome (α : Type) where
  | ok (val : α)
  | err (msg : String)
  | crash
  deriving Repr, DecidableEq

/-- Modelled from the spec: BCD renders each byte as two decimal digits
(high nibble first); this is the digit-to-character map. -/
def bcdDigitChar (n : Nat) : Char := Char.ofNat (48 + n)

/-- Modelled from the spec: `hex.ReadBCD` turns the 6 timestamp bytes into
the 12-digit `YYMMDDhhmmss` string, two digits per byte, high nibble first. -/
def readBCD (bs : List Nat) : String :=
  (bs.flatMap (fun b => [bcdDigitChar (b / 16 % 16), bcdDigitChar (b % 16)])).asString

/-- Digit pairs of a character list packed into BCD bytes. -/
def writeBCDAux : List Char → List Nat
  | c1 :: c2 :: rest => ((c1.toNat - 48) * 16 + (c2.toNat - 48)) :: writeBCDAux rest
  | _ => []

/-- Modelled from the spec: `hex.WriteBCD` appends the BCD bytes of a digit
string, two digits per byte. -/
def writeBCD (pkt : List Nat) (s : String) : List Nat := pkt ++ writeBCDAux s.data

/-- Modelled from the spec: `hex.WriteWord` appends a 2-byte big-endian
integer. -/
def writeWord (pkt : List Nat) (v : Nat) : List Nat :=
  pkt ++ [v / 2 ^ 8 % 256, v % 256]

/-- Modelled from the spec: `hex.WriteDoubleWord` appends a 4-byte big-endian
integer. -/
def writeDoubleWord (pkt : List Nat) (v : Nat) : List Nat :=
  pkt ++ [v / 2 ^ 24 % 256, v / 2 ^ 16 % 256, v / 2 ^ 8 % 256, v % 256]

/-- The wire form of one attachment entry: tag, one length byte
(`byte(len(value))`, hence `% 256`), then the value bytes. -/
def tlvEntryBytes (id : Nat) (value : List Nat) : List Nat :=
  id :: value.length % 256 :: value

/-- The body of `Msg0200.Encode`'s emission loop: look the tag up in the
map and append its wire entry (the lookup always succeeds, since the tags
are the map's own keys). -/
def tlvAppendStep (es : List (Nat × List Nat)) (pkt : List Nat) (id : Nat) : List Nat :=
  match mapOf es id with
  | some value => pkt ++ tlvEntryBytes id value
  | none => pkt

/-- The bytes one tag contributes to the TLV section. -/
def tlvIdBytes (es : List (Nat × List Nat)) (id : Nat) : List Nat :=
  match mapOf es id with
  | some value => tlvEntryBytes id value
  | none => []

/-- The TLV loop of `Msg0200.Decode`, translated step for step: while input
remains, read a tag byte, read a length byte, slice out `length` bytes.
Reading the length byte when no byte remains, or slicing past the end of the
buffer, is an out-of-range access in the Go source (no bounds check), hence
`crash`.  Entries are returned in wire order; `Msg0200.decode` below folds
them into the Go map with `mapOf` semantics. -/
def parseTLV : List Nat → DecodeOutcome (List (Nat × List Nat))
  | [] => .ok []
  | [_] => .crash
  | id :: len :: rest =>
    if len ≤ rest.length then
      match parseTLV (rest.drop len) with
      | .ok es => .ok ((id, rest.take len) :: es)
      | .err m => .err m
      | .crash => .crash
    else .crash
termination_by l => l.length
decreasing_by simp only [List.length_drop, List.length_cons]; omega

/-- The location report message.  `AttachData` is a Go `map[byte][]byte`;
the embedding stores the entry list (wire order for a decoded message,
arbitrary order with unique keys for a message to encode) and reads it with
Go-map `mapOf` semantics. -/
structure Msg0200 where
  AlarmSign : Nat
  StatusSign : Nat
  Latitude : Nat
  Longitude : Nat
  Altitude : Nat
  Speed : Nat
  Direction : Nat
  Time : String
  AttachData : List (Nat × List Nat)
  deriving Repr, DecidableEq

/-- `Msg0200.Decode` on the message body.  The fixed 28-byte header region is
read with the `hex` readers, modelled from the spec: a truncated fixed-header
region is a length/format error.  The remaining bytes go through the TLV
loop translated above. -/
def Msg0200.decode (body : List Nat) : DecodeOutcome Msg0200 :=
  if body.length < 28 then .err "malformed message body"
  else
    match parseTLV (body.drop 28) with
    | .ok entries => .ok
      { AlarmSign := beVal (body.take 4)
        StatusSign := beVal ((body.drop 4).take 4)
        Latitude := beVal ((body.drop 8).take 4)
        Longitude := beVal ((body.drop 12).take 4)
        Altitude := beVal ((body.drop 16).take 2)
        Speed := beVal ((body.drop 18).take 2)
        Direction := beVal ((body.drop 20).take 2)
        Time := readBCD ((body.drop 22).take 6)
        AttachData := entries }
    | .err m => .err m
    | .crash => .crash

/-- `Msg0200.Encode` up to (excluding) the trailing `writeHeader` call, i.e.
the message body: fixed fields, then the attachment entries with tags in
ascending order.  The source collects the map keys, sorts them ascending with
`sort.Slice`, and looks each one up; since Go map keys are unique, sorting
with `≤` produces that same ascending key list. -/
def Msg0200.encodeBody (m : Msg0200) : List Nat :=
  let pkt := writeDoubleWord [] m.AlarmSign
  let pkt := writeDoubleWord pkt m.StatusSign
  let pkt := writeDoubleWord pkt m.Latitude
  let pkt := writeDoubleWord pkt m.Longitude
  let pkt := writeWord pkt m.Altitude
  let pkt := writeWord pkt m.Speed
  let pkt := writeWord pkt m.Direction
  let pkt := writeBCD pkt m.Time
  let attachIDs := (m.AttachData.map Prod.fst).mergeSort (fun a b => a ≤ b)
  attachIDs.foldl (tlvAppendStep m.AttachData) pkt

/-! ## DeviceGeo (`device.go`) -/

def LocationAccuracy : Nat := 1000000
def SpeedAccuracy : Nat := 10

/-- Scaled position.  Go divides in `float64`; the claims never inspect the
quotients, so the embedding uses exact rationals for the two divisions. -/
structure Location where
  Latitude : ℚ
  Longitude : ℚ
  Altitude : Nat
  deriving Repr, DecidableEq

def Location.decode (m : Msg0200) : Location where
  Latitude := (m.Latitude : ℚ) / (LocationAccuracy : ℚ)
  Longitude := (m.Longitude : ℚ) / (LocationAccuracy : ℚ)
  Altitude := m.Altitude

/-- Scaled speed and heading, `float64` division modelled as in `Location`. -/
structure Drive where
  Speed : ℚ
  Direction : Nat
  deriving Repr, DecidableEq

def Drive.decode (m : Msg0200) : Drive where
  Speed := (m.Speed : ℚ) / (SpeedAccuracy : ℚ)
  Direction := m.Direction

/-- The per-report snapshot.  `Time` is Go `time.Time` via `hex.ParseTime`
(not under the provided sources); modelled from the spec as the parsed
timestamp carried through, represented by the BCD string itself — no claim
inspects it.  `WifiInfos`, `LBSInfos`, `Battery` are nilable in Go: `none`
models nil, `some` a non-nil (possibly empty) value. -/
structure DeviceGeo where
  Phone : String
  Geo : GeoMeta
  Location : JT808.Location
  Drive : JT808.Drive
  Time : String
  WifiInfos : Option (List WifiInfo)
  LBSInfos : Option (List LBSInfo)
  Battery : Option JT808.Battery
  CsqLevel : Int
  Sattelite : Int
  deriving Repr, DecidableEq

/-- `DeviceGeo.Decode`: translated from the source.  Each guarded sub-decode
passes a freshly initialised receiver (empty slice / zero `Battery`) and
DISCARDS the returned error; the method itself always returns `nil`,
modelled by the `Option String` component being `none`. -/
def DeviceGeo.decode (phone : String) (m : Msg0200) : DeviceGeo × Option String :=
  let wifiInfos : Option (List WifiInfo) :=
    match mapOf m.AttachData 0x54 with
    | some data => if 2 ≤ data.length then some (WifiList.decode [] data).1 else none
    | none => none
  let lbsInfos : Option (List LBSInfo) :=
    match mapOf m.AttachData 0x5D with
    | some data => if 2 ≤ data.length then some (LBSList.decode [] data).1 else none
    | none => none
  let battery : Option JT808.Battery :=
    match mapOf m.AttachData 0x04 with
    | some data => if 2 ≤ data.length then some (Battery.decode ⟨0, false⟩ data).1 else none
    | none => none
  let csq : Int :=
    match mapOf m.AttachData 0x30 with
    | some data => if 1 ≤ data.length then toInt8 (data.headD 0) else 0
    | none => 0
  let sat : Int :=
    match mapOf m.AttachData 0x31 with
    | some data => if 1 ≤ data.length then toInt8 (data.headD 0) else 0
    | none => 0
  ({ Phone := phone
     Geo := GeoMeta.decode m.StatusSign
     Location := Location.decode m
     Drive := Drive.decode m
     Time := m.Time
     WifiInfos := wifiInfos
     LBSInfos := lbsInfos
     Battery := battery
     CsqLevel := csq
     Sattelite := sat }, none)

/-! ## Device cache (`device_cache.go`, dual-indexed version) -/

/-- The cached device record.  Connection handle, keep-alive timing and
version metadata are never read by the cache operations under verification
and are omitted; the indexed keys and identity fields are kept. -/
structure Device where
  ID : String
  Plate : String
  Phone : String
  SessionID : String
  Status : Nat
  deriving Repr, DecidableEq

/-- The dual-indexed registry.  Go maps become functions to `Option Device`;
`updated` is the dirty flag.  The mutex is dropped (sequential embedding). -/
structure DeviceCache where
  CacheByPlate : String → Option Device
  CacheByPhone : String → Option Device
  updated : Bool

def errDeviceNotFound : String := "device not found"

def DeviceCache.IsUpdated (cache : DeviceCache) : Bool := cache.updated

def DeviceCache.GetDeviceByPlate (cache : DeviceCache) (carPlate : String) :
    Except String Device :=
  match cache.CacheByPlate carPlate with
  | some d => .ok d
  | none => .error errDeviceNotFound

def DeviceCache.GetDeviceByPhone (cache : DeviceCache) (phone : String) :
    Except String Device :=
  match cache.CacheByPhone phone with
  | some d => .ok d
  | none => .error errDeviceNotFound

/-- Unexported `cacheDevice`: insert under both keys; does not touch the
dirty flag. -/
def DeviceCache.cacheDevice (cache : DeviceCache) (d : Device) : DeviceCache :=
  { cache with
    CacheByPlate := fun k => if k = d.Plate then some d else cache.CacheByPlate k
    CacheByPhone := fun k => if k = d.Phone then some d else cache.CacheByPhone k }

/-- `CacheDevice`: the exported put; the deferred closure sets the dirty
flag. -/
def DeviceCache.CacheDevice (cache : DeviceCache) (d : Device) : DeviceCache :=
  { cache.cacheDevice d with updated := true }

/-- Unexported `delDevice`: the Go function looks up by plate first, then —
if a phone key was given — overwrites both `d` and `ok` with the phone
lookup; a miss is a no-op; a hit removes the found device from BOTH indices
by its own plate and phone.  The dirty flag is not touched (unlike the older
phone-only schema of the cache, this version has no `updated = true` here). -/
def DeviceCache.delDevice (cache : DeviceCache) (carPlate phone : Option String) :
    DeviceCache :=
  let byPlate : Option Device :=
    match carPlate with
    | some cp => cache.CacheByPlate cp
    | none => none
  let found : Option Device :=
    match phone with
    | some ph => cache.CacheByPhone ph
    | none => byPlate
  match found with
  | none => cache
  | some d =>
    { cache with
      CacheByPlate := fun k => if k = d.Plate then none else cache.CacheByPlate k
      CacheByPhone := fun k => if k = d.Phone then none else cache.CacheByPhone k }

def DeviceCache.DelDeviceByCarPlate (cache : DeviceCache) (carPlate : String) :
    DeviceCache :=
  cache.delDevice (some carPlate) none

def DeviceCache.DelDeviceByPhone (cache : DeviceCache) (phone : String) :
    DeviceCache :=
  cache.delDevice none (some phone)

/-! ## Persister (`persister.go`)

File-system effects are modelled explicitly: `FS` is the snapshot file
state, a `ReadOutcome` (resp. `WriteOutcome`) per attempt models what
`os.ReadFile` (resp. `os.WriteFile`/`os.Rename`) does on that attempt, and
serialization is a parameter, since `encoding/json` is outside the sources.
The retry loops return the number of attempts actually performed. -/

def maxRetryAttempts : Nat := 3

/-- State of the snapshot path: the renamed-over final file and the
temporary file. -/
structure FS where
  file : Option (List Nat)
  tmp : Option (List Nat)
  deriving Repr, DecidableEq

/-- What `os.ReadFile` does on one attempt: the file does not exist, the
read fails, or it yields bytes. -/
inductive ReadOutcome where
  | missing
  | failed (msg : String)
  | ok (bytes : List Nat)
  deriving Repr, DecidableEq

/-- Whether the write-temp-file-and-rename pair succeeds on one attempt. -/
inductive WriteOutcome where
  | ok
  | failed (msg : String)
  deriving Repr, DecidableEq

/-- `Persister.atomicLoad`: a missing file returns `nil` with the entity
untouched; a read error is returned; otherwise the bytes are unmarshalled
into the entity (`unmarshal` stands for `json.Unmarshal`). -/
def Persister.atomicLoad {E : Type} (unmarshal : List Nat → E → E × Option String)
    (r : ReadOutcome) (data : E) : E × Option String :=
  match r with
  | .missing => (data, none)
  | .failed msg => (data, some msg)
  | .ok bytes => unmarshal bytes data

/-- The retry loop of `Persister.loadWithRetry`; `i` is the attempt index,
the `Nat` fuel is the remaining attempt budget, and the final `Nat` of the
result is the number of attempts performed.  A last-attempt failure returns
the wrapped error of that attempt. -/
def Persister.loadLoop {E : Type} (unmarshal : List Nat → E → E × Option String)
    (reads : Nat → ReadOutcome) (i : Nat) :
    Nat → E → E × Option String × Nat
  | 0, d => (d, some "load failed after retries", 0)
  | fuel + 1, d =>
    match Persister.atomicLoad unmarshal (reads i) d with
    | (d2, none) => (d2, none, 1)
    | (d2, some e) =>
      match fuel with
      | 0 => (d2, some ("load failed after retries: " ++ e), 1)
      | fuel2 + 1 =>
        let rest := Persister.loadLoop unmarshal reads (i + 1) (fuel2 + 1) d2
        (rest.1, rest.2.1, rest.2.2 + 1)

/-- `Persister.loadWithRetry`: up to `maxRetryAttempts` attempts. -/
def Persister.loadWithRetry {E : Type} (unmarshal : List Nat → E → E × Option String)
    (reads : Nat → ReadOutcome) (d : E) : E × Option String × Nat :=
  Persister.loadLoop unmarshal reads 0 maxRetryAttempts d

/-- `Persister.atomicSave`: marshal, write the temporary file, rename it over
the final path.  On success the file holds the marshalled bytes and the
temporary file is gone; on failure the previous state is kept.  The entity
is only read. -/
def Persister.atomicSave {E : Type} (marshal : E → List Nat)
    (w : WriteOutcome) (fs : FS) (data : E) : FS × Option String :=
  let jsonData := marshal data
  match w with
  | .ok => ({ file := some jsonData, tmp := none }, none)
  | .failed msg => (fs, some msg)

/-- The retry loop of `Persister.saveWithRetry`, shaped like `loadLoop`. -/
def Persister.saveLoop {E : Type} (marshal : E → List Nat)
    (writes : Nat → WriteOutcome) (i : Nat) :
    Nat → FS → E → FS × Option String × Nat
  | 0, fs, _ => (fs, some "save failed after retries", 0)
  | fuel + 1, fs, d =>
    match Persister.atomicSave marshal (writes i) fs d with
    | (fs2, none) => (fs2, none, 1)
    | (fs2, some e) =>
      match fuel with
      | 0 => (fs2, some ("save failed after retries: " ++ e), 1)
      | fuel2 + 1 =>
        let rest := Persister.saveLoop marshal writes (i + 1) (fuel2 + 1) fs2 d
        (rest.1, rest.2.1, rest.2.2 + 1)

/-- `Persister.saveWithRetry`. -/
def Persister.saveWithRetry {E : Type} (marshal : E → List Nat)
    (writes : Nat → WriteOutcome) (fs : FS) (d : E) : FS × Option String × Nat :=
  Persister.saveLoop marshal writes 0 maxRetryAttempts fs d

/-- One tick of `Persister.autoSave`, instantiated at the device cache as in
the repository: if the object reports unsaved changes, run `saveWithRetry`
and record its error.  Nothing in the tick (or anywhere else in the sources)
writes to the cache, so the cache comes back unchanged; the result carries
the cache, the file state and `lastSaveErr`. -/
def Persister.autoSaveTick (marshal : DeviceCache → List Nat)
    (writes : Nat → WriteOutcome) (fs : FS) (cache : DeviceCache) :
    DeviceCache × FS × Option String :=
  if cache.IsUpdated then
    let r := Persister.saveWithRetry marshal writes fs cache
    (cache, r.1, r.2.1)
  else (cache, fs, none)

/-! ## Bit-extraction helper lemmas -/

theorem and_shiftLeft_shiftRight (s m k : Nat) :
    (s &&& (m <<< k)) >>> k = (s >>> k) &&& m := by
  apply Nat.eq_of_testBit_eq
  intro i
  simp [Nat.testBit_shiftRight, Nat.testBit_and, Nat.testBit_shiftLeft,
    Nat.le_add_right, Nat.add_sub_cancel_left]

theorem extract_single (s k : Nat) : (s &&& (1 <<< k)) >>> k = s / 2 ^ k % 2 := by
  rw [and_shiftLeft_shiftRight, Nat.and_one_is_mod, Nat.shiftRight_eq_div_pow]

theorem extract2 (s : Nat) : (s &&& 2) >>> 1 = s / 2 % 2 := by
  have h := extract_single s 1; norm_num [Nat.shiftLeft_eq] at h; exact h

theorem extract4 (s : Nat) : (s &&& 4) >>> 2 = s / 4 % 2 := by
  have h := extract_single s 2; norm_num [Nat.shiftLeft_eq] at h; exact h

theorem extract8 (s : Nat) : (s &&& 8) >>> 3 = s / 8 % 2 := by
  have h := extract_single s 3; norm_num [Nat.shiftLeft_eq] at h; exact h

theorem extract16 (s : Nat) : (s &&& 16) >>> 4 = s / 16 % 2 := by
  have h := extract_single s 4; norm_num [Nat.shiftLeft_eq] at h; exact h

theorem extract32 (s : Nat) : (s &&& 32) >>> 5 = s / 32 % 2 := by
  have h := extract_single s 5; norm_num [Nat.shiftLeft_eq] at h; exact h

theorem extract_load (s : Nat) : (s &&& 768) >>> 8 = s / 256 % 4 := by
  have h := and_shiftLeft_shiftRight s 3 8
  norm_num [Nat.shiftLeft_eq] at h
  rw [h, Nat.shiftRight_eq_div_pow]
  have h3 : (3 : Nat) = 2 ^ 2 - 1 := by norm_num
  rw [h3, Nat.and_pow_two_sub_one_eq_mod]

theorem extract1024 (s : Nat) : (s &&& 1024) >>> 10 = s / 1024 % 2 := by
  have h := extract_single s 10; norm_num [Nat.shiftLeft_eq] at h; exact h

theorem extract2048 (s : Nat) : (s &&& 2048) >>> 11 = s / 2048 % 2 := by
  have h := extract_single s 11; norm_num [Nat.shiftLeft_eq] at h; exact h

theorem extract4096 (s : Nat) : (s &&& 4096) >>> 12 = s / 4096 % 2 := by
  have h := extract_single s 12; norm_num [Nat.shiftLeft_eq] at h; exact h

theorem extract8192 (s : Nat) : (s &&& 8192) >>> 13 = s / 8192 % 2 := by
  have h := extract_single s 13; norm_num [Nat.shiftLeft_eq] at h; exact h

theorem extract16384 (s : Nat) : (s &&& 16384) >>> 14 = s / 16384 % 2 := by
  have h := extract_single s 14; norm_num [Nat.shiftLeft_eq] at h; exact h

theorem extract32768 (s : Nat) : (s &&& 32768) >>> 15 = s / 32768 % 2 := by
  have h := extract_single s 15; norm_num [Nat.shiftLeft_eq] at h; exact h

theorem extract65536 (s : Nat) : (s &&& 65536) >>> 16 = s / 65536 % 2 := by
  have h := extract_single s 16; norm_num [Nat.shiftLeft_eq] at h; exact h

theorem extract131072 (s : Nat) : (s &&& 131072) >>> 17 = s / 131072 % 2 := by
  have h := extract_single s 17; norm_num [Nat.shiftLeft_eq] at h; exact h

theorem extract262144 (s : Nat) : (s &&& 262144) >>> 18 = s / 262144 % 2 := by
  have h := extract_single s 18; norm_num [Nat.shiftLeft_eq] at h; exact h

theorem extract524288 (s : Nat) : (s &&& 524288) >>> 19 = s / 524288 % 2 := by
  have h := extract_single s 19; norm_num [Nat.shiftLeft_eq] at h; exact h

theorem extract1048576 (s : Nat) : (s &&& 1048576) >>> 20 = s / 1048576 % 2 := by
  have h := extract_single s 20; norm_num [Nat.shiftLeft_eq] at h; exact h

theorem extract2097152 (s : Nat) : (s &&& 2097152) >>> 21 = s / 2097152 % 2 := by
  have h := extract_single s 21; norm_num [Nat.shiftLeft_eq] at h; exact h

theorem extract4194304 (s : Nat) : (s &&& 4194304) >>> 22 = s / 4194304 % 2 := by
  have h := extract_single s 22; norm_num [Nat.shiftLeft_eq] at h; exact h

/-! ### Field-level characterizations of the GeoMeta codec -/

theorem decode_ACC (s : Nat) : (GeoMeta.decode s).ACCStatus = s % 2 := by
  show (s &&& 1) % 256 = s % 2
  rw [Nat.and_one_is_mod]; omega

theorem decode_Location (s : Nat) : (GeoMeta.decode s).LocationStatus = s / 2 % 2 := by
  show ((s &&& 2) >>> 1) % 256 = s / 2 % 2
  rw [extract2]; omega

theorem decode_LatType (s : Nat) : (GeoMeta.decode s).LatitudeType = s / 4 % 2 := by
  show ((s &&& 4) >>> 2) % 256 = s / 4 % 2
  rw [extract4]; omega

theorem decode_LonType (s : Nat) : (GeoMeta.decode s).LongitudeType = s / 8 % 2 := by
  show ((s &&& 8) >>> 3) % 256 = s / 8 % 2
  rw [extract8]; omega

theorem decode_Operating (s : Nat) : (GeoMeta.decode s).OperatingStatus = s / 16 % 2 := by
  show ((s &&& 16) >>> 4) % 256 = s / 16 % 2
  rw [extract16]; omega

theorem decode_Encryption (s : Nat) : (GeoMeta.decode s).GeoEncryptionStatus = s / 32 % 2 := by
  show ((s &&& 32) >>> 5) % 256 = s / 32 % 2
  rw [extract32]; omega

theorem decode_Load (s : Nat) : (GeoMeta.decode s).LoadStatus = s / 256 % 4 := by
  show ((s &&& 768) >>> 8) % 256 = s / 256 % 4
  rw [extract_load]; omega

theorem decode_Fuel (s : Nat) : (GeoMeta.decode s).FuelSystemStatus = s / 1024 % 2 := by
  show ((s &&& 1024) >>> 10) % 256 = s / 1024 % 2
  rw [extract1024]; omega

theorem decode_Alternator (s : Nat) : (GeoMeta.decode s).AlternatorSystemStatus = s / 2048 % 2 := by
  show ((s &&& 2048) >>> 11) % 256 = s / 2048 % 2
  rw [extract2048]; omega

theorem decode_DoorLocked (s : Nat) : (GeoMeta.decode s).DoorLockedStatus = s / 4096 % 2 := by
  show ((s &&& 4096) >>> 12) % 256 = s / 4096 % 2
  rw [extract4096]; omega

theorem decode_FrontDoor (s : Nat) : (GeoMeta.decode s).FrontDoorStatus = s / 8192 % 2 := by
  show ((s &&& 8192) >>> 13) % 256 = s / 8192 % 2
  rw [extract8192]; omega

theorem decode_MidDoor (s : Nat) : (GeoMeta.decode s).MidDoorStatus = s / 16384 % 2 := by
  show ((s &&& 16384) >>> 14) % 256 = s / 16384 % 2
  rw [extract16384]; omega

theorem decode_BackDoor (s : Nat) : (GeoMeta.decode s).BackDoorStatus = s / 32768 % 2 := by
  show ((s &&& 32768) >>> 15) % 256 = s / 32768 % 2
  rw [extract32768]; omega

theorem decode_DriverDoor (s : Nat) : (GeoMeta.decode s).DriverDoorStatus = s / 65536 % 2 := by
  show ((s &&& 65536) >>> 16) % 256 = s / 65536 % 2
  rw [extract65536]; omega

theorem decode_CustomDoor (s : Nat) : (GeoMeta.decode s).CustomDoorStatus = s / 131072 % 2 := by
  show ((s &&& 131072) >>> 17) % 256 = s / 131072 % 2
  rw [extract131072]; omega

theorem decode_GPS (s : Nat) : (GeoMeta.decode s).GPSLocationStatus = s / 262144 % 2 := by
  show ((s &&& 262144) >>> 18) % 256 = s / 262144 % 2
  rw [extract262144]; omega

theorem decode_Beidou (s : Nat) : (GeoMeta.decode s).BeidouLocationStatus = s / 524288 % 2 := by
  show ((s &&& 524288) >>> 19) % 256 = s / 524288 % 2
  rw [extract524288]; omega

theorem decode_GLONASS (s : Nat) : (GeoMeta.decode s).GLONASSLocationStatus = s / 1048576 % 2 := by
  show ((s &&& 1048576) >>> 20) % 256 = s / 1048576 % 2
  rw [extract1048576]; omega

theorem decode_Galileo (s : Nat) : (GeoMeta.decode s).GalileoLocationStatus = s / 2097152 % 2 := by
  show ((s &&& 2097152) >>> 21) % 256 = s / 2097152 % 2
  rw [extract2097152]; omega

theorem decode_Driving (s : Nat) : (GeoMeta.decode s).DrivingStatus = s / 4194304 % 2 := by
  show ((s &&& 4194304) >>> 22) % 256 = s / 4194304 % 2
  rw [extract4194304]; omega

/-- `GeoMeta.encode` as plain arithmetic: each field contributes at its
shift position (with `LongitudeType` at 4 and `LatitudeType` at 8, the
source's swap), reduced modulo `2^32`. -/
theorem encode_eq (g : GeoMeta) : GeoMeta.encode g =
    (g.ACCStatus % 256 + g.LocationStatus % 256 * 2 + g.LongitudeType % 256 * 4
      + g.LatitudeType % 256 * 8 + g.OperatingStatus % 256 * 16
      + g.GeoEncryptionStatus % 256 * 32 + g.LoadStatus % 256 * 256
      + g.FuelSystemStatus % 256 * 1024 + g.AlternatorSystemStatus % 256 * 2048
      + g.DoorLockedStatus % 256 * 4096 + g.FrontDoorStatus % 256 * 8192
      + g.MidDoorStatus % 256 * 16384 + g.BackDoorStatus % 256 * 32768
      + g.DriverDoorStatus % 256 * 65536 + g.CustomDoorStatus % 256 * 131072
      + g.GPSLocationStatus % 256 * 262144 + g.BeidouLocationStatus % 256 * 524288
      + g.GLONASSLocationStatus % 256 * 1048576
      + g.GalileoLocationStatus % 256 * 2097152
      + g.DrivingStatus % 256 * 4194304) % 4294967296 := by
  unfold GeoMeta.encode
  simp only [Nat.shiftLeft_eq]
  norm_num

/-! ## C1: GeoMeta round trip -/

set_option maxHeartbeats 4000000 in
/-- C1: for every `GeoMeta` whose single-bit fields are 0 or 1 and whose
`LoadStatus` is in 0..3, `Decode (Encode g)` reproduces every field exactly,
except the two adjacent hemisphere-type bits: the decoded `LatitudeType`
comes back as the original `LongitudeType` and vice versa (the documented
bit-2/bit-3 asymmetry), so the round trip is field-for-field the identity
with at most that one exception. -/
theorem geoMeta_decode_encode (g : GeoMeta)
    (hacc : g.ACCStatus ≤ 1) (hloc : g.LocationStatus ≤ 1)
    (hlat : g.LatitudeType ≤ 1) (hlon : g.LongitudeType ≤ 1)
    (hop : g.OperatingStatus ≤ 1) (henc : g.GeoEncryptionStatus ≤ 1)
    (hload : g.LoadStatus ≤ 3) (hfuel : g.FuelSystemStatus ≤ 1)
    (halt : g.AlternatorSystemStatus ≤ 1) (hdl : g.DoorLockedStatus ≤ 1)
    (hfd : g.FrontDoorStatus ≤ 1) (hmd : g.MidDoorStatus ≤ 1)
    (hbd : g.BackDoorStatus ≤ 1) (hdd : g.DriverDoorStatus ≤ 1)
    (hcd : g.CustomDoorStatus ≤ 1) (hgps : g.GPSLocationStatus ≤ 1)
    (hbei : g.BeidouLocationStatus ≤ 1) (hglo : g.GLONASSLocationStatus ≤ 1)
    (hgal : g.GalileoLocationStatus ≤ 1) (hdrv : g.DrivingStatus ≤ 1) :
    (GeoMeta.decode (GeoMeta.encode g)).ACCStatus = g.ACCStatus ∧
    (GeoMeta.decode (GeoMeta.encode g)).LocationStatus = g.LocationStatus ∧
    (GeoMeta.decode (GeoMeta.encode g)).OperatingStatus = g.OperatingStatus ∧
    (GeoMeta.decode (GeoMeta.encode g)).GeoEncryptionStatus = g.GeoEncryptionStatus ∧
    (GeoMeta.decode (GeoMeta.encode g)).LoadStatus = g.LoadStatus ∧
    (GeoMeta.decode (GeoMeta.encode g)).FuelSystemStatus = g.FuelSystemStatus ∧
    (GeoMeta.decode (GeoMeta.encode g)).AlternatorSystemStatus = g.AlternatorSystemStatus ∧
    (GeoMeta.decode (GeoMeta.encode g)).DoorLockedStatus = g.DoorLockedStatus ∧
    (GeoMeta.decode (GeoMeta.encode g)).FrontDoorStatus = g.FrontDoorStatus ∧
    (GeoMeta.decode (GeoMeta.encode g)).MidDoorStatus = g.MidDoorStatus ∧
    (GeoMeta.decode (GeoMeta.encode g)).BackDoorStatus = g.BackDoorStatus ∧
    (GeoMeta.decode (GeoMeta.encode g)).DriverDoorStatus = g.DriverDoorStatus ∧
    (GeoMeta.decode (GeoMeta.encode g)).CustomDoorStatus = g.CustomDoorStatus ∧
    (GeoMeta.decode (GeoMeta.encode g)).GPSLocationStatus = g.GPSLocationStatus ∧
    (GeoMeta.decode (GeoMeta.encode g)).BeidouLocationStatus = g.BeidouLocationStatus ∧
    (GeoMeta.decode (GeoMeta.encode g)).GLONASSLocationStatus = g.GLONASSLocationStatus ∧
    (GeoMeta.decode (GeoMeta.encode g)).GalileoLocationStatus = g.GalileoLocationStatus ∧
    (GeoMeta.decode (GeoMeta.encode g)).DrivingStatus = g.DrivingStatus ∧
    (GeoMeta.decode (GeoMeta.encode g)).LatitudeType = g.LongitudeType ∧
    (GeoMeta.decode (GeoMeta.encode g)).LongitudeType = g.LatitudeType := by
  refine ⟨?_, ?_, ?_, ?_, ?_, ?_, ?_, ?_, ?_, ?_, ?_, ?_, ?_, ?_, ?_, ?_, ?_, ?_, ?_, ?_⟩ <;>
    · simp only [decode_ACC, decode_Location, decode_LatType, decode_LonType,
        decode_Operating, decode_Encryption, decode_Load, decode_Fuel,
        decode_Alternator, decode_DoorLocked, decode_FrontDoor, decode_MidDoor,
        decode_BackDoor, decode_DriverDoor, decode_CustomDoor, decode_GPS,
        decode_Beidou, decode_GLONASS, decode_Galileo, decode_Driving,
        encode_eq]
      omega

/-- A concrete `GeoMeta` value used by the C1 witness. -/
def g1 : GeoMeta where
  ACCStatus := 1
  LocationStatus := 0
  LatitudeType := 1
  LongitudeType := 0
  OperatingStatus := 1
  GeoEncryptionStatus := 0
  LoadStatus := 2
  FuelSystemStatus := 1
  AlternatorSystemStatus := 0
  DoorLockedStatus := 1
  FrontDoorStatus := 0
  MidDoorStatus := 1
  BackDoorStatus := 0
  DriverDoorStatus := 1
  CustomDoorStatus := 0
  GPSLocationStatus := 1
  BeidouLocationStatus := 0
  GLONASSLocationStatus := 1
  GalileoLocationStatus := 0
  DrivingStatus := 1

/-- C1 witness: the hypotheses hold and the theorem applies at `g1`. -/
theorem geoMeta_decode_encode_witness :
    (g1.ACCStatus ≤ 1 ∧ g1.LoadStatus ≤ 3) ∧
    (GeoMeta.decode (GeoMeta.encode g1)).ACCStatus = g1.ACCStatus :=
  ⟨⟨by decide, by decide⟩,
    (geoMeta_decode_encode g1 (by decide) (by decide) (by decide) (by decide)
      (by decide) (by decide) (by decide) (by decide) (by decide) (by decide)
      (by decide) (by decide) (by decide) (by decide) (by decide) (by decide)
      (by decide) (by decide) (by decide) (by decide)).1⟩

/-! ## C6 / C9: cache dual-index behavior -/

/-- The registry as built by `GetDeviceCache`: both maps empty, flag clear. -/
def emptyCache : DeviceCache where
  CacheByPlate := fun _ => none
  CacheByPhone := fun _ => none
  updated := false

/-- C6: immediately after `CacheDevice d`, both `GetDeviceByPhone d.Phone`
and `GetDeviceByPlate d.Plate` return `d`; after a subsequent delete through
either key, both lookups report device-not-found — the delete removes the
record from both indices using the device's own phone and plate. -/
theorem cache_put_get_delete (c : DeviceCache) (d : Device) :
    (c.CacheDevice d).GetDeviceByPhone d.Phone = .ok d ∧
    (c.CacheDevice d).GetDeviceByPlate d.Plate = .ok d ∧
    ((c.CacheDevice d).DelDeviceByPhone d.Phone).GetDeviceByPhone d.Phone
      = .error errDeviceNotFound ∧
    ((c.CacheDevice d).DelDeviceByPhone d.Phone).GetDeviceByPlate d.Plate
      = .error errDeviceNotFound ∧
    ((c.CacheDevice d).DelDeviceByCarPlate d.Plate).GetDeviceByPhone d.Phone
      = .error errDeviceNotFound ∧
    ((c.CacheDevice d).DelDeviceByCarPlate d.Plate).GetDeviceByPlate d.Plate
      = .error errDeviceNotFound := by
  unfold DeviceCache.CacheDevice DeviceCache.cacheDevice
    DeviceCache.DelDeviceByPhone DeviceCache.DelDeviceByCarPlate
    DeviceCache.delDevice DeviceCache.GetDeviceByPhone DeviceCache.GetDeviceByPlate
  simp

/-- C9: a put never cleans up stale plate-index entries.  If `d2` replaces
`d1` under the same phone but a different plate, the old plate key still
resolves to `d1` while the phone resolves to `d2`; and if `e1`, `e2` share a
plate but not a phone, the shared plate key resolves to the later put while
each phone keeps its own record — so the dual-index agreement invariant is
not preserved by every pair of puts. -/
theorem cache_put_stale_plate (c : DeviceCache) (d1 d2 e1 e2 : Device)
    (hphone : d1.Phone = d2.Phone) (hplate : d1.Plate ≠ d2.Plate)
    (hplate2 : e1.Plate = e2.Plate) (hphone2 : e1.Phone ≠ e2.Phone) :
    ((c.CacheDevice d1).CacheDevice d2).GetDeviceByPlate d1.Plate = .ok d1 ∧
    ((c.CacheDevice d1).CacheDevice d2).GetDeviceByPhone d1.Phone = .ok d2 ∧
    ((c.CacheDevice e1).CacheDevice e2).GetDeviceByPlate e1.Plate = .ok e2 ∧
    ((c.CacheDevice e1).CacheDevice e2).GetDeviceByPhone e1.Phone = .ok e1 := by
  unfold DeviceCache.CacheDevice DeviceCache.cacheDevice
    DeviceCache.GetDeviceByPhone DeviceCache.GetDeviceByPlate
  simp [hphone, hplate, hplate2, hphone2]

def dA : Device := ⟨"id1", "plateA", "phone1", "s1", 0⟩
def dB : Device := ⟨"id2", "plateB", "phone1", "s2", 0⟩
def dC : Device := ⟨"id3", "plateC", "phone3", "s3", 0⟩
def dD : Device := ⟨"id4", "plateC", "phone4", "s4", 0⟩

/-- C9 witness: the hypotheses hold and the theorem applies at concrete
devices (same phone + different plates, and same plate + different phones). -/
theorem cache_put_stale_plate_witness :
    (dA.Phone = dB.Phone ∧ dA.Plate ≠ dB.Plate ∧ dC.Plate = dD.Plate ∧
      dC.Phone ≠ dD.Phone) ∧
    ((emptyCache.CacheDevice dA).CacheDevice dB).GetDeviceByPlate dA.Plate = .ok dA :=
  ⟨⟨by decide, by decide, by decide, by decide⟩,
    (cache_put_stale_plate emptyCache dA dB dC dD (by decide) (by decide)
      (by decide) (by decide)).1⟩

/-! ## C4: the dirty flag -/

/-- A registry state holding one device with the dirty flag clear: exactly
the state after the initial `Load` fills the maps (the unexported `updated`
field is not populated by `json.Unmarshal`). -/
def loadedCache : DeviceCache where
  CacheByPlate := fun k => if k = "plateA" then some dA else none
  CacheByPhone := fun k => if k = "phone1" then some dA else none
  updated := false

/-- C4 counterexample: the claim is false on the dual-indexed cache.
Deleting the only device from a clean registry leaves `IsUpdated` false
(the claim says any delete makes it true): the dual-indexed `delDevice`
has no `updated = true` assignment.  And after a put, one autosave tick
whose write succeeds (`lastSaveErr = none`) leaves `IsUpdated` true (the
claim says a successful save clears it): nothing in the sources ever
resets the flag. -/
theorem cache_dirty_flag_counterexample :
    (loadedCache.DelDeviceByPhone "phone1").IsUpdated = false ∧
    (emptyCache.CacheDevice dA).IsUpdated = true ∧
    (Persister.autoSaveTick (fun _ => []) (fun _ => .ok) ⟨none, none⟩
      (emptyCache.CacheDevice dA)).2.2 = none ∧
    (Persister.autoSaveTick (fun _ => []) (fun _ => .ok) ⟨none, none⟩
      (emptyCache.CacheDevice dA)).1.IsUpdated = true := by
  refine ⟨?_, rfl, ?_, ?_⟩ <;>
    simp [DeviceCache.DelDeviceByPhone, DeviceCache.delDevice, loadedCache,
      DeviceCache.IsUpdated, Persister.autoSaveTick, Persister.saveWithRetry,
      Persister.saveLoop, Persister.atomicSave, maxRetryAttempts,
      DeviceCache.CacheDevice, DeviceCache.cacheDevice, emptyCache]

/-- C4 amended: `IsUpdated` is true immediately after any put
(`CacheDevice`); the two deletes leave it unchanged (so it stays false on a
freshly loaded registry); and an autosave tick — successful or not — returns
the cache untouched, dirty flag included: no code path ever clears the flag,
so in particular a failed save leaves it set. -/
theorem cache_dirty_flag_behavior (c : DeviceCache) (d : Device) (p cp : String)
    (marshal : DeviceCache → List Nat) (writes : Nat → WriteOutcome) (fs : FS) :
    (c.CacheDevice d).IsUpdated = true ∧
    (c.DelDeviceByPhone p).IsUpdated = c.IsUpdated ∧
    (c.DelDeviceByCarPlate cp).IsUpdated = c.IsUpdated ∧
    (Persister.autoSaveTick marshal writes fs c).1 = c := by
  refine ⟨rfl, ?_, ?_, ?_⟩
  · unfold DeviceCache.DelDeviceByPhone DeviceCache.delDevice DeviceCache.IsUpdated
    rcases hcp : c.CacheByPhone p with _ | d2 <;> simp [hcp]
  · unfold DeviceCache.DelDeviceByCarPlate DeviceCache.delDevice DeviceCache.IsUpdated
    rcases hcp : c.CacheByPlate cp with _ | d2 <;> simp [hcp]
  · unfold Persister.autoSaveTick
    split <;> rfl

/-! ## C8: load of a missing snapshot -/

/-- C8: when the first read attempt finds no file, `loadWithRetry` returns
no error, leaves the entity exactly as it was, and performs a single attempt
— a missing file is "nothing to load", not a `PersistenceFailure`, and no
retries are consumed on it. -/
theorem persister_load_missing {E : Type} (unmarshal : List Nat → E → E × Option String)
    (reads : Nat → ReadOutcome) (d : E) (h : reads 0 = ReadOutcome.missing) :
    Persister.loadWithRetry unmarshal reads d = (d, none, 1) := by
  simp [Persister.loadWithRetry, Persister.loadLoop, maxRetryAttempts, h,
    Persister.atomicLoad]

/-- C8 witness: the theorem applies with the constantly-missing read model. -/
theorem persister_load_missing_witness :
    (fun _ : Nat => ReadOutcome.missing) 0 = ReadOutcome.missing ∧
    Persister.loadWithRetry (fun (_ : List Nat) (e : Nat) => (e, none))
      (fun _ => ReadOutcome.missing) 7 = (7, none, 1) :=
  ⟨rfl, persister_load_missing _ _ 7 rfl⟩

/-! ## C2: unchecked TLV length -/

/-- C2: evaluation at the failing input.  A body with a complete 28-byte
fixed header followed by the TLV bytes `0x01 0x05` (declared length 5, zero
value bytes remaining) makes `Msg0200.Decode` perform an out-of-range slice
— a Go runtime panic, modelled as `crash` — instead of returning a
`MalformedMessage`/`MalformedAttachment` error; the decoder is not total on
all byte inputs. -/
theorem msg0200_decode_truncated_tlv_crashes :
    Msg0200.decode (List.replicate 28 0 ++ [1, 5]) = DecodeOutcome.crash := by
  have hdrop : (List.replicate 28 (0 : Nat) ++ [1, 5]).drop 28 = [1, 5] :=
    List.drop_left' (by simp)
  have hlen : (List.replicate 28 (0 : Nat) ++ [1, 5]).length = 30 := by simp
  have htlv : parseTLV [1, 5] = DecodeOutcome.crash := by simp [parseTLV]
  simp [Msg0200.decode, hdrop, hlen, htlv]

/-! ## C3: WiFi record decoding -/

/-- C3: evaluation at the failing input.  For the WiFi payload
`01 00 11 22 33 44 55 80` (one access point; MAC bytes `001122334455`
followed by the RSSI byte `0x80`), the source computes the RSSI from
`apData[0]` — the FIRST MAC byte, `0x00`, giving -90 dBm — and never reads
the 7th record byte, while the claimed layout (6-byte MAC, then the RSSI
byte through the linear map) requires `byteToDBM 0x80 = -59`. -/
theorem wifi_decode_rssi_from_first_mac_byte :
    (WifiList.decode [] [1, 0, 17, 34, 51, 68, 85, 128]).1
      = [{ MAC := "001122334455", RSSI := -90 }] ∧
    (WifiList.decode [] [1, 0, 17, 34, 51, 68, 85, 128]).2 = none ∧
    byteToDBM 128 = -59 ∧ byteToDBM 0 = -90 := by
  refine ⟨by decide, by decide, by decide, by decide⟩

/-! ## C10: DeviceGeo.Decode discards sub-decoder errors -/

/-- C10: `DeviceGeo.Decode` returns `nil` for every input message — the
errors of the WiFi, cell-tower and battery sub-decoders are discarded — and
when a present WiFi (resp. cell-tower) attachment of length at least 2 has a
declared count that mismatches the payload length, the decoded `WifiInfos`
(resp. `LBSInfos`) is the empty non-nil list, with no error reported. -/
theorem deviceGeo_decode_total (phone : String) (m : Msg0200) :
    (DeviceGeo.decode phone m).2 = none ∧
    (∀ data, mapOf m.AttachData 0x54 = some data → 2 ≤ data.length →
      data.length ≠ 1 + data.headD 0 * 7 →
      (DeviceGeo.decode phone m).1.WifiInfos = some []) ∧
    (∀ data, mapOf m.AttachData 0x5D = some data → 2 ≤ data.length →
      data.length ≠ 1 + data.headD 0 * 10 →
      (DeviceGeo.decode phone m).1.LBSInfos = some []) := by
  refine ⟨rfl, ?_, ?_⟩
  · intro data h hlen hmis
    have h1 : ¬ data.length < 1 := by omega
    simp only [List.headD_eq_head?_getD] at hmis
    simp [DeviceGeo.decode, WifiList.decode, h, hlen, h1, hmis]
  · intro data h hlen hmis
    have h1 : ¬ data.length < 1 := by omega
    simp only [List.headD_eq_head?_getD] at hmis
    simp [DeviceGeo.decode, LBSList.decode, h, hlen, h1, hmis]

/-- C10 witness: a message whose WiFi attachment declares 3 access points
but carries only one record, and whose LBS attachment declares 2 towers but
carries none. -/
def mBad : Msg0200 where
  AlarmSign := 0
  StatusSign := 0
  Latitude := 0
  Longitude := 0
  Altitude := 0
  Speed := 0
  Direction := 0
  Time := "240101120000"
  AttachData := [(0x54, [3, 0, 17, 34, 51, 68, 85, 128]), (0x5D, [2, 7])]

/-- C10 witness: the theorem applies at `mBad`, whose sub-records have
mismatched declared counts. -/
theorem deviceGeo_decode_total_witness :
    (mapOf mBad.AttachData 0x54 = some [3, 0, 17, 34, 51, 68, 85, 128] ∧
      mapOf mBad.AttachData 0x5D = some [2, 7]) ∧
    (DeviceGeo.decode "13800000000" mBad).2 = none ∧
    (DeviceGeo.decode "13800000000" mBad).1.WifiInfos = some [] ∧
    (DeviceGeo.decode "13800000000" mBad).1.LBSInfos = some [] :=
  ⟨⟨by decide, by decide⟩,
    (deviceGeo_decode_total "13800000000" mBad).1,
    (deviceGeo_decode_total "13800000000" mBad).2.1
      [3, 0, 17, 34, 51, 68, 85, 128] (by decide) (by decide) (by decide),
    (deviceGeo_decode_total "13800000000" mBad).2.2
      [2, 7] (by decide) (by decide) (by decide)⟩

/-! ## C7: cell-tower list decoding -/

theorem getD_window (l : List Nat) (a m j : Nat) (hj : j < m) :
    ((l.drop a).take m).getD j 0 = l.getD (a + j) 0 := by
  simp [List.getD_eq_getElem?_getD, List.getElem?_take_of_lt hj, List.getElem?_drop]

theorem getD_drop (l : List Nat) (a j : Nat) :
    (l.drop a).getD j 0 = l.getD (a + j) 0 := by
  simp [List.getD_eq_getElem?_getD, List.getElem?_drop]

theorem getD_mem (l : List Nat) (i : Nat) (h : i < l.length) : l.getD i 0 ∈ l := by
  rw [List.getD_eq_getElem?_getD, List.getElem?_eq_getElem h, Option.getD_some]
  exact List.getElem_mem h

theorem take4_eq : ∀ (l : List Nat), 4 ≤ l.length →
    l.take 4 = [l.getD 0 0, l.getD 1 0, l.getD 2 0, l.getD 3 0]
  | _ :: _ :: _ :: _ :: _, _ => by simp
  | [], h => by simp at h
  | [_], h => by simp at h
  | [_, _], h => by simp at h
  | [_, _, _], h => by simp at h

theorem beVal_four (a b c d : Nat) :
    beVal [a, b, c, d] = ((a * 256 + b) * 256 + c) * 256 + d := by
  simp only [beVal, List.foldl]
  omega

theorem shiftLeft8_or (a b : Nat) (hb : b < 256) : a <<< 8 ||| b = 256 * a + b := by
  have h28 : (2 : Nat) ^ 8 = 256 := by norm_num
  have hb2 : b < 2 ^ 8 := by omega
  rw [Nat.shiftLeft_eq, Nat.mul_comm, ← Nat.mul_add_lt_is_or hb2 a, h28]

/-- The 10-byte cell-tower record layout exactly as the spec words it, read
at offset `1 + i * 10` of the payload: 2-byte big-endian mobile-country-code,
1-byte mobile-network-code, 2-byte big-endian location-area-code, 4-byte
big-endian cell id, 1-byte signed RSSI. -/
def lbsRecordSpec (data : List Nat) (i : Nat) : LBSInfo where
  MCC := 256 * data.getD (1 + i * 10) 0 + data.getD (1 + i * 10 + 1) 0
  MNC := data.getD (1 + i * 10 + 2) 0
  LAC := 256 * data.getD (1 + i * 10 + 3) 0 + data.getD (1 + i * 10 + 4) 0
  CellID := ((data.getD (1 + i * 10 + 5) 0 * 256 + data.getD (1 + i * 10 + 6) 0) * 256
      + data.getD (1 + i * 10 + 7) 0) * 256 + data.getD (1 + i * 10 + 8) 0
  RSSI := toInt8 (data.getD (1 + i * 10 + 9) 0)

/-- On a count-matching payload, `LBSList.Decode` succeeds with the record
list built from the 10-byte windows. -/
theorem lbs_decode_match (init : List LBSInfo) (n : Nat) (rest : List Nat)
    (heq : rest.length = n * 10) :
    LBSList.decode init (n :: rest) =
      ((List.range n).map (fun i =>
        { MCC := ((((n :: rest).drop (1 + i * 10)).take 10).getD 0 0) <<< 8 |||
                 (((n :: rest).drop (1 + i * 10)).take 10).getD 1 0
          MNC := (((n :: rest).drop (1 + i * 10)).take 10).getD 2 0
          LAC := ((((n :: rest).drop (1 + i * 10)).take 10).getD 3 0) <<< 8 |||
                 (((n :: rest).drop (1 + i * 10)).take 10).getD 4 0
          CellID := beVal (((((n :: rest).drop (1 + i * 10)).take 10).drop 5).take 4)
          RSSI := toInt8 ((((n :: rest).drop (1 + i * 10)).take 10).getD 9 0) }), none) := by
  simp only [LBSList.decode]
  rw [if_neg (by simp)]
  rw [if_neg (by simp only [List.length_cons, List.headD_cons, ne_eq, not_not]; omega)]
  simp

/-- On a count-mismatching payload, `LBSList.Decode` fails with the
length-mismatch error, leaving the receiver slice untouched. -/
theorem lbs_decode_mismatch (init : List LBSInfo) (n : Nat) (rest : List Nat)
    (hne : rest.length ≠ n * 10) :
    LBSList.decode init (n :: rest) = (init, some "invalid lbs data length") := by
  simp only [LBSList.decode]
  rw [if_neg (by simp)]
  rw [if_pos (by simp only [List.length_cons, List.headD_cons, ne_eq]; omega)]

/-- One decoded record agrees with the spec-worded layout. -/
theorem lbs_record_eq (n : Nat) (rest : List Nat) (heq : rest.length = n * 10)
    (hbytes : ∀ b ∈ n :: rest, b < 256) (i : Nat) (hi : i < n) :
    ({ MCC := ((((n :: rest).drop (1 + i * 10)).take 10).getD 0 0) <<< 8 |||
              (((n :: rest).drop (1 + i * 10)).take 10).getD 1 0
       MNC := (((n :: rest).drop (1 + i * 10)).take 10).getD 2 0
       LAC := ((((n :: rest).drop (1 + i * 10)).take 10).getD 3 0) <<< 8 |||
              (((n :: rest).drop (1 + i * 10)).take 10).getD 4 0
       CellID := beVal (((((n :: rest).drop (1 + i * 10)).take 10).drop 5).take 4)
       RSSI := toInt8 ((((n :: rest).drop (1 + i * 10)).take 10).getD 9 0) } : LBSInfo)
      = lbsRecordSpec (n :: rest) i := by
  have hdl : (n :: rest).length = 1 + n * 10 := by
    simp only [List.length_cons, heq]; omega
  have hwl : (((n :: rest).drop (1 + i * 10)).take 10).length = 10 := by
    simp only [List.length_take, List.length_drop, hdl]
    omega
  have hw : ∀ j, j < 10 → (((n :: rest).drop (1 + i * 10)).take 10).getD j 0
      = (n :: rest).getD (1 + i * 10 + j) 0 :=
    fun j hj => getD_window (n :: rest) (1 + i * 10) 10 j hj
  have hb : ∀ j, j < 10 → (n :: rest).getD (1 + i * 10 + j) 0 < 256 := by
    intro j hj
    exact hbytes _ (getD_mem (n :: rest) (1 + i * 10 + j) (by omega))
  have hdrop5 : (((((n :: rest).drop (1 + i * 10)).take 10).drop 5).take 4) =
      [(n :: rest).getD (1 + i * 10 + 5) 0, (n :: rest).getD (1 + i * 10 + 6) 0,
       (n :: rest).getD (1 + i * 10 + 7) 0, (n :: rest).getD (1 + i * 10 + 8) 0] := by
    rw [take4_eq _ (by rw [List.length_drop, hwl]; omega)]
    simp only [getD_drop]
    norm_num
  unfold lbsRecordSpec
  rw [hdrop5, beVal_four]
  rw [hw 0 (by omega), hw 1 (by omega), hw 2 (by omega), hw 3 (by omega),
    hw 4 (by omega), hw 9 (by omega)]
  rw [shiftLeft8_or _ _ (by simpa using hb 1 (by omega)),
    shiftLeft8_or _ _ (by simpa using hb 4 (by omega))]
  norm_num

set_option maxHeartbeats 1000000 in
/-- C7: for a payload of length at least 1 with byte-valued entries and
`N = payload[0]`, `LBSList.Decode` fails with the length-mismatch error
exactly when the payload length differs from `1 + 10 N`; on success it
yields the `N` records in order, each decoded per the spec layout: 2-byte
big-endian MCC, 1-byte MNC, 2-byte big-endian LAC, 4-byte big-endian cell
id, 1-byte signed RSSI. -/
theorem lbs_decode_spec (init : List LBSInfo) (data : List Nat)
    (hlen : 1 ≤ data.length) (hbytes : ∀ b ∈ data, b < 256) :
    ((LBSList.decode init data).2 ≠ none ↔ data.length ≠ 1 + data.headD 0 * 10) ∧
    (data.length = 1 + data.headD 0 * 10 →
      (LBSList.decode init data).1.length = data.headD 0 ∧
      ∀ i < data.headD 0,
        (LBSList.decode init data).1.getD i ⟨0, 0, 0, 0, 0⟩ = lbsRecordSpec data i) := by
  obtain ⟨n, rest, rfl⟩ : ∃ n rest, data = n :: rest := by
    cases data with
    | nil => simp at hlen
    | cons a l => exact ⟨a, l, rfl⟩
  constructor
  · by_cases hc : rest.length = n * 10
    · constructor
      · intro hne
        exfalso
        rw [lbs_decode_match init n rest hc] at hne
        exact hne rfl
      · intro hne
        exfalso
        simp only [List.length_cons, List.headD_cons] at hne
        omega
    · constructor
      · intro _
        simp only [List.length_cons, List.headD_cons]
        omega
      · intro _
        rw [lbs_decode_mismatch init n rest hc]
        simp
  · intro hc
    have hc2 : rest.length = n * 10 := by
      simp only [List.length_cons, List.headD_cons] at hc
      omega
    rw [lbs_decode_match init n rest hc2]
    constructor
    · simp
    · intro i hi
      simp only [List.headD_cons] at hi
      rw [List.getD_eq_getElem?_getD, List.getElem?_map, List.getElem?_range hi]
      exact lbs_record_eq n rest hc2 hbytes i hi

/-- A concrete cell-tower payload for the C7 witness: one record with
MCC 500, MNC 15, LAC 100, cell id 1234, RSSI byte 0x9C (= -100 signed). -/
def lbsData1 : List Nat := [1, 1, 244, 15, 0, 100, 0, 0, 4, 210, 156]

/-- C7 witness: the hypotheses hold at `lbsData1` and the theorem applies. -/
theorem lbs_decode_spec_witness :
    (1 ≤ lbsData1.length ∧ ∀ b ∈ lbsData1, b < 256) ∧
    ((LBSList.decode [] lbsData1).2 ≠ none ↔
      lbsData1.length ≠ 1 + lbsData1.headD 0 * 10) :=
  ⟨⟨by decide, by decide⟩, (lbs_decode_spec [] lbsData1 (by decide) (by decide)).1⟩

/-! ## C5: Msg0200 round trip — association-list machinery -/

theorem mapOf_acc (es : List (Nat × List Nat)) (t : Nat) (acc : Option (List Nat)) :
    es.foldl (fun a e => if e.1 = t then some e.2 else a) acc =
      match mapOf es t with
      | some v => some v
      | none => acc := by
  induction es generalizing acc with
  | nil => rfl
  | cons e es ih =>
    show es.foldl _ (if e.1 = t then some e.2 else acc) = _
    rw [ih]
    have h2 : mapOf (e :: es) t = match mapOf es t with
        | some v => some v
        | none => if e.1 = t then some e.2 else none := by
      show es.foldl _ (if e.1 = t then some e.2 else none) = _
      rw [ih]
    rw [h2]
    rcases h3 : mapOf es t with _ | v
    · simp only [h3]
      by_cases he : e.1 = t <;> simp [he]
    · simp [h3]

theorem mapOf_cons (e : Nat × List Nat) (es : List (Nat × List Nat)) (t : Nat) :
    mapOf (e :: es) t = match mapOf es t with
      | some v => some v
      | none => if e.1 = t then some e.2 else none := by
  show es.foldl _ (if e.1 = t then some e.2 else none) = _
  rw [mapOf_acc]

theorem mapOf_mem (es : List (Nat × List Nat)) (t : Nat) (v : List Nat)
    (h : mapOf es t = some v) : (t, v) ∈ es := by
  induction es with
  | nil => simp [mapOf] at h
  | cons e es ih =>
    rw [mapOf_cons] at h
    rcases h3 : mapOf es t with _ | w
    · rw [h3] at h
      simp only [] at h
      by_cases he : e.1 = t
      · rw [if_pos he] at h
        obtain ⟨e1, e2⟩ := e
        simp only at he h
        obtain rfl : e2 = v := by injection h
        subst he
        exact List.mem_cons_self _ _
      · rw [if_neg he] at h
        exact absurd h (by simp)
    · rw [h3] at h
      simp only [] at h
      obtain rfl : w = v := by injection h
      exact List.mem_cons_of_mem _ (ih h3)

theorem mapOf_eq_none (es : List (Nat × List Nat)) (t : Nat)
    (h : t ∉ es.map Prod.fst) : mapOf es t = none := by
  induction es with
  | nil => rfl
  | cons e es ih =>
    simp only [List.map_cons, List.mem_cons, not_or] at h
    rw [mapOf_cons, ih h.2]
    simp [Ne.symm h.1]

theorem mapOf_filterMap (ids : List Nat) (es : List (Nat × List Nat)) (t : Nat)
    (hnd : ids.Nodup) :
    mapOf (ids.filterMap (fun id => (mapOf es id).map (fun v => (id, v)))) t =
      if t ∈ ids then mapOf es t else none := by
  induction ids with
  | nil => simp [mapOf]
  | cons id ids ih =>
    have hnd2 : ids.Nodup := (List.nodup_cons.mp hnd).2
    have hid : id ∉ ids := (List.nodup_cons.mp hnd).1
    rcases hm : mapOf es id with _ | v
    · have hfm : (fun id => Option.map (fun v => (id, v)) (mapOf es id)) id = none := by
        simp [hm]
      rw [@List.filterMap_cons_none _ _
        (fun id => Option.map (fun v => (id, v)) (mapOf es id)) id ids hfm]
      rw [ih hnd2]
      by_cases hti : t = id
      · subst hti
        simp [hid, hm]
      · simp [List.mem_cons, hti]
    · have hfm : (fun id => Option.map (fun v => (id, v)) (mapOf es id)) id
          = some (id, v) := by simp [hm]
      rw [@List.filterMap_cons_some _ _
        (fun id => Option.map (fun v => (id, v)) (mapOf es id)) id ids (id, v) hfm]
      rw [mapOf_cons, ih hnd2]
      by_cases ht : t ∈ ids
      · have hne : id ≠ t := fun h => hid (h ▸ ht)
        rcases hmt : mapOf es t with _ | w
        · simp [ht, hmt, hne, List.mem_cons]
        · simp [ht, hmt, List.mem_cons]
      · by_cases hti : t = id
        · subst hti
          simp [ht, hm]
        · simp [ht, hti, Ne.symm hti, List.mem_cons]

theorem filterMap_keys (ids : List Nat) (es : List (Nat × List Nat))
    (h : ∀ id ∈ ids, ∃ v, mapOf es id = some v) :
    (ids.filterMap (fun id => (mapOf es id).map (fun v => (id, v)))).map Prod.fst
      = ids := by
  induction ids with
  | nil => rfl
  | cons id ids ih =>
    obtain ⟨v, hv⟩ := h id (by simp)
    have hfm : (fun id => Option.map (fun v => (id, v)) (mapOf es id)) id
        = some (id, v) := by simp [hv]
    rw [@List.filterMap_cons_some _ _
      (fun id => Option.map (fun v => (id, v)) (mapOf es id)) id ids (id, v) hfm]
    simp only [List.map_cons]
    rw [ih (fun i hi => h i (by simp [hi]))]

theorem flatMap_entries (ids : List Nat) (es : List (Nat × List Nat)) :
    ids.flatMap (tlvIdBytes es) =
    (ids.filterMap (fun id => (mapOf es id).map (fun v => (id, v)))).flatMap
      (fun e => tlvEntryBytes e.1 e.2) := by
  induction ids with
  | nil => rfl
  | cons id ids ih =>
    rcases hm : mapOf es id with _ | v
    · have hfm : (fun id => Option.map (fun v => (id, v)) (mapOf es id)) id = none := by
        simp [hm]
      rw [List.flatMap_cons,
        @List.filterMap_cons_none _ _
          (fun id => Option.map (fun v => (id, v)) (mapOf es id)) id ids hfm, ih]
      simp [tlvIdBytes, hm]
    · have hfm : (fun id => Option.map (fun v => (id, v)) (mapOf es id)) id
          = some (id, v) := by simp [hm]
      rw [List.flatMap_cons,
        @List.filterMap_cons_some _ _
          (fun id => Option.map (fun v => (id, v)) (mapOf es id)) id ids (id, v) hfm,
        List.flatMap_cons, ih]
      simp [tlvIdBytes, hm]

theorem foldl_tlv (ids : List Nat) (es : List (Nat × List Nat)) (pkt : List Nat) :
    ids.foldl (tlvAppendStep es) pkt = pkt ++ ids.flatMap (tlvIdBytes es) := by
  induction ids generalizing pkt with
  | nil => simp
  | cons id ids ih =>
    rcases hm : mapOf es id with _ | v <;>
      simp [tlvAppendStep, tlvIdBytes, hm, ih, List.append_assoc]

theorem parseTLV_entries : ∀ (entries : List (Nat × List Nat)),
    (∀ e ∈ entries, e.2.length ≤ 255) →
    parseTLV (entries.flatMap (fun e => tlvEntryBytes e.1 e.2)) = .ok entries
  | [], _ => by simp [parseTLV]
  | e :: es, h => by
    rw [List.flatMap_cons]
    have hlen : e.2.length % 256 = e.2.length :=
      Nat.mod_eq_of_lt (by have := h e (by simp); omega)
    show parseTLV (e.1 :: e.2.length % 256 ::
      (e.2 ++ es.flatMap (fun e => tlvEntryBytes e.1 e.2))) = _
    rw [hlen]
    rw [parseTLV]
    rw [if_pos (by simp)]
    rw [List.take_left, List.drop_left]
    rw [parseTLV_entries es (fun x hx => h x (by simp [hx]))]

/-! ### BCD, big-endian and list-window helpers for C5 -/

theorem writeBCDAux_length : ∀ l : List Char, (writeBCDAux l).length = l.length / 2
  | [] => by simp [writeBCDAux]
  | [_] => by simp [writeBCDAux]
  | c1 :: c2 :: rest => by
    simp only [writeBCDAux, List.length_cons, writeBCDAux_length rest]
    omega

theorem bcd_chars_roundtrip : ∀ l : List Char,
    (∀ c ∈ l, 48 ≤ c.toNat ∧ c.toNat ≤ 57) → l.length % 2 = 0 →
    (writeBCDAux l).flatMap
      (fun b => [bcdDigitChar (b / 16 % 16), bcdDigitChar (b % 16)]) = l
  | [], _, _ => rfl
  | [_], _, hpar => by simp at hpar
  | c1 :: c2 :: rest, hdig, hpar => by
    have h1 := hdig c1 (by simp)
    have h2 := hdig c2 (by simp)
    have hrec := bcd_chars_roundtrip rest (fun c hc => hdig c (by simp [hc]))
      (by simp only [List.length_cons] at hpar; omega)
    simp only [writeBCDAux, List.flatMap_cons, hrec]
    have e1 : ((c1.toNat - 48) * 16 + (c2.toNat - 48)) / 16 % 16 = c1.toNat - 48 := by
      omega
    have e2 : ((c1.toNat - 48) * 16 + (c2.toNat - 48)) % 16 = c2.toNat - 48 := by
      omega
    rw [e1, e2]
    have f1 : bcdDigitChar (c1.toNat - 48) = c1 := by
      unfold bcdDigitChar
      rw [show 48 + (c1.toNat - 48) = c1.toNat by omega]
      exact Char.ofNat_toNat c1
    have f2 : bcdDigitChar (c2.toNat - 48) = c2 := by
      unfold bcdDigitChar
      rw [show 48 + (c2.toNat - 48) = c2.toNat by omega]
      exact Char.ofNat_toNat c2
    rw [f1, f2]
    rfl

theorem readBCD_writeBCDAux (s : String)
    (hdig : ∀ c ∈ s.data, 48 ≤ c.toNat ∧ c.toNat ≤ 57)
    (hpar : s.data.length % 2 = 0) :
    readBCD (writeBCDAux s.data) = s := by
  unfold readBCD
  rw [bcd_chars_roundtrip s.data hdig hpar]
  rfl

theorem beVal_two (a b : Nat) : beVal [a, b] = a * 256 + b := by
  simp only [beVal, List.foldl]
  omega

theorem beVal_writeDW (v : Nat) (hv : v < 4294967296) :
    beVal [v / 2 ^ 24 % 256, v / 2 ^ 16 % 256, v / 2 ^ 8 % 256, v % 256] = v := by
  rw [beVal_four]
  have h24 : (2 : Nat) ^ 24 = 16777216 := by norm_num
  have h16 : (2 : Nat) ^ 16 = 65536 := by norm_num
  have h8 : (2 : Nat) ^ 8 = 256 := by norm_num
  rw [h24, h16, h8]
  omega

theorem beVal_writeW (v : Nat) (hv : v < 65536) :
    beVal [v / 2 ^ 8 % 256, v % 256] = v := by
  rw [beVal_two]
  have h8 : (2 : Nat) ^ 8 = 256 := by norm_num
  rw [h8]
  omega

theorem drop_chunk (l1 l2 : List Nat) (n k m : Nat) (h : l1.length = n)
    (hk : k = n + m) : (l1 ++ l2).drop k = l2.drop m := by
  subst hk
  subst h
  rw [← List.drop_drop, List.drop_left]

theorem mapOf_isSome_of_mem (es : List (Nat × List Nat)) (t : Nat)
    (h : t ∈ es.map Prod.fst) : ∃ v, mapOf es t = some v := by
  induction es with
  | nil => simp at h
  | cons e es ih =>
    rcases h3 : mapOf es t with _ | w
    · rw [mapOf_cons, h3]
      simp only [List.map_cons, List.mem_cons] at h
      rcases h with h | h
      · exact ⟨e.2, by simp [h.symm]⟩
      · obtain ⟨v, hv⟩ := ih h
        rw [h3] at hv
        simp at hv
    · rw [mapOf_cons, h3]
      exact ⟨w, rfl⟩

/-- The sorted key list of the encoder is strictly increasing when the map
keys are distinct. -/
theorem mergeSort_lt (l : List Nat) (hnd : l.Nodup) :
    List.Pairwise (· < ·) (l.mergeSort (fun a b => a ≤ b)) := by
  have hperm : List.Perm (l.mergeSort (fun a b => a ≤ b)) l := List.mergeSort_perm l _
  have hnd2 : (l.mergeSort (fun a b => a ≤ b)).Nodup := hperm.nodup_iff.mpr hnd
  have hsorted := @List.sorted_mergeSort Nat (fun a b => decide (a ≤ b))
    (fun a b c hab hbc => by
      simp only [decide_eq_true_eq] at hab hbc ⊢; omega)
    (fun a b => by simpa using Nat.le_total a b)
    l
  refine (hsorted.and hnd2).imp ?_
  intro a b hab
  have h1 : a ≤ b := by
    have := hab.1
    simpa using this
  exact lt_of_le_of_ne h1 hab.2

/-- The TLV section the encoder emits parses back to an entry list that
looks up exactly like the original map and whose tags strictly ascend. -/
theorem encode_tlv_section (es : List (Nat × List Nat))
    (hkeys : (es.map Prod.fst).Nodup)
    (hvals : ∀ e ∈ es, e.2.length ≤ 255) :
    ∃ entries2,
      parseTLV (((es.map Prod.fst).mergeSort (fun a b => a ≤ b)).flatMap (tlvIdBytes es))
        = .ok entries2 ∧
      (∀ t, mapOf entries2 t = mapOf es t) ∧
      List.Pairwise (· < ·) (entries2.map Prod.fst) := by
  have hperm : List.Perm ((es.map Prod.fst).mergeSort (fun a b => a ≤ b))
      (es.map Prod.fst) := List.mergeSort_perm _ _
  have hndS : ((es.map Prod.fst).mergeSort (fun a b => a ≤ b)).Nodup :=
    hperm.nodup_iff.mpr hkeys
  have hmem : ∀ id ∈ (es.map Prod.fst).mergeSort (fun a b => a ≤ b),
      ∃ v, mapOf es id = some v := by
    intro id hid
    exact mapOf_isSome_of_mem es id (by simpa using (List.mem_mergeSort).mp hid)
  refine ⟨((es.map Prod.fst).mergeSort (fun a b => a ≤ b)).filterMap
    (fun id => (mapOf es id).map (fun v => (id, v))), ?_, ?_, ?_⟩
  · rw [flatMap_entries]
    apply parseTLV_entries
    intro e he
    simp only [List.mem_filterMap] at he
    obtain ⟨id, hid, heq⟩ := he
    rcases hm : mapOf es id with _ | v
    · rw [hm] at heq
      simp at heq
    · rw [hm] at heq
      have h2 : (id, v) = e := by injection heq
      obtain rfl := h2
      exact hvals _ (mapOf_mem es id v hm)
  · intro t
    rw [mapOf_filterMap _ _ _ hndS]
    by_cases ht : t ∈ (es.map Prod.fst).mergeSort (fun a b => a ≤ b)
    · rw [if_pos ht]
    · rw [if_neg ht]
      rw [mapOf_eq_none es t (fun hc => ht ((List.mem_mergeSort).mpr hc))]
  · rw [filterMap_keys _ _ hmem]
    exact mergeSort_lt _ hkeys

set_option maxHeartbeats 2000000 in
/-- C5: for every valid location report — fixed fields within their wire
widths, a 12-digit BCD timestamp, an attachment map with distinct tags and
values of at most 255 bytes — decoding the body emitted by `Msg0200.Encode`
succeeds, reproduces every fixed field exactly, reproduces the attachment
map pointwise (Go-map lookup semantics), and the decoded entry list — which
`parseTLV` returns in wire order — carries strictly ascending tags: the
encoder emits attachment entries sorted by tag regardless of insertion
order. -/
theorem msg0200_roundtrip (m : Msg0200)
    (halarm : m.AlarmSign < 4294967296) (hstatus : m.StatusSign < 4294967296)
    (hlat : m.Latitude < 4294967296) (hlon : m.Longitude < 4294967296)
    (halt : m.Altitude < 65536) (hspeed : m.Speed < 65536)
    (hdir : m.Direction < 65536)
    (htimelen : m.Time.data.length = 12)
    (htimedig : ∀ c ∈ m.Time.data, 48 ≤ c.toNat ∧ c.toNat ≤ 57)
    (hkeys : (m.AttachData.map Prod.fst).Nodup)
    (hvals : ∀ e ∈ m.AttachData, e.2.length ≤ 255) :
    ∃ m2, Msg0200.decode (Msg0200.encodeBody m) = .ok m2 ∧
      m2.AlarmSign = m.AlarmSign ∧ m2.StatusSign = m.StatusSign ∧
      m2.Latitude = m.Latitude ∧ m2.Longitude = m.Longitude ∧
      m2.Altitude = m.Altitude ∧ m2.Speed = m.Speed ∧
      m2.Direction = m.Direction ∧ m2.Time = m.Time ∧
      (∀ t, mapOf m2.AttachData t = mapOf m.AttachData t) ∧
      List.Pairwise (· < ·) (m2.AttachData.map Prod.fst) := by
  obtain ⟨entries2, hparse, hmapEq, hsorted⟩ :=
    encode_tlv_section m.AttachData hkeys hvals
  have hTlen : (writeBCDAux m.Time.data).length = 6 := by
    rw [writeBCDAux_length, htimelen]
  have hbody : Msg0200.encodeBody m =
      [m.AlarmSign / 2 ^ 24 % 256, m.AlarmSign / 2 ^ 16 % 256,
        m.AlarmSign / 2 ^ 8 % 256, m.AlarmSign % 256] ++
      ([m.StatusSign / 2 ^ 24 % 256, m.StatusSign / 2 ^ 16 % 256,
        m.StatusSign / 2 ^ 8 % 256, m.StatusSign % 256] ++
      ([m.Latitude / 2 ^ 24 % 256, m.Latitude / 2 ^ 16 % 256,
        m.Latitude / 2 ^ 8 % 256, m.Latitude % 256] ++
      ([m.Longitude / 2 ^ 24 % 256, m.Longitude / 2 ^ 16 % 256,
        m.Longitude / 2 ^ 8 % 256, m.Longitude % 256] ++
      ([m.Altitude / 2 ^ 8 % 256, m.Altitude % 256] ++
      ([m.Speed / 2 ^ 8 % 256, m.Speed % 256] ++
      ([m.Direction / 2 ^ 8 % 256, m.Direction % 256] ++
      (writeBCDAux m.Time.data ++
        ((m.AttachData.map Prod.fst).mergeSort (fun a b => a ≤ b)).flatMap
          (tlvIdBytes m.AttachData)))))))) := by
    simp only [Msg0200.encodeBody, writeDoubleWord, writeWord, writeBCD,
      foldl_tlv, List.nil_append, List.cons_append, List.append_assoc]
  have hd4 : (Msg0200.encodeBody m).drop 4 =
      [m.StatusSign / 2 ^ 24 % 256, m.StatusSign / 2 ^ 16 % 256,
        m.StatusSign / 2 ^ 8 % 256, m.StatusSign % 256] ++
      ([m.Latitude / 2 ^ 24 % 256, m.Latitude / 2 ^ 16 % 256,
        m.Latitude / 2 ^ 8 % 256, m.Latitude % 256] ++
      ([m.Longitude / 2 ^ 24 % 256, m.Longitude / 2 ^ 16 % 256,
        m.Longitude / 2 ^ 8 % 256, m.Longitude % 256] ++
      ([m.Altitude / 2 ^ 8 % 256, m.Altitude % 256] ++
      ([m.Speed / 2 ^ 8 % 256, m.Speed % 256] ++
      ([m.Direction / 2 ^ 8 % 256, m.Direction % 256] ++
      (writeBCDAux m.Time.data ++
        ((m.AttachData.map Prod.fst).mergeSort (fun a b => a ≤ b)).flatMap
          (tlvIdBytes m.AttachData))))))) := by
    rw [hbody]
    exact List.drop_left' (by simp)
  have hd8 : (Msg0200.encodeBody m).drop 8 =
      [m.Latitude / 2 ^ 24 % 256, m.Latitude / 2 ^ 16 % 256,
        m.Latitude / 2 ^ 8 % 256, m.Latitude % 256] ++
      ([m.Longitude / 2 ^ 24 % 256, m.Longitude / 2 ^ 16 % 256,
        m.Longitude / 2 ^ 8 % 256, m.Longitude % 256] ++
      ([m.Altitude / 2 ^ 8 % 256, m.Altitude % 256] ++
      ([m.Speed / 2 ^ 8 % 256, m.Speed % 256] ++
      ([m.Direction / 2 ^ 8 % 256, m.Direction % 256] ++
      (writeBCDAux m.Time.data ++
        ((m.AttachData.map Prod.fst).mergeSort (fun a b => a ≤ b)).flatMap
          (tlvIdBytes m.AttachData)))))) := by
    rw [show (8 : Nat) = 4 + 4 from by norm_num, ← List.drop_drop, hd4]
    exact List.drop_left' (by simp)
  have hd12 : (Msg0200.encodeBody m).drop 12 =
      [m.Longitude / 2 ^ 24 % 256, m.Longitude / 2 ^ 16 % 256,
        m.Longitude / 2 ^ 8 % 256, m.Longitude % 256] ++
      ([m.Altitude / 2 ^ 8 % 256, m.Altitude % 256] ++
      ([m.Speed / 2 ^ 8 % 256, m.Speed % 256] ++
      ([m.Direction / 2 ^ 8 % 256, m.Direction % 256] ++
      (writeBCDAux m.Time.data ++
        ((m.AttachData.map Prod.fst).mergeSort (fun a b => a ≤ b)).flatMap
          (tlvIdBytes m.AttachData))))) := by
    rw [show (12 : Nat) = 8 + 4 from by norm_num, ← List.drop_drop, hd8]
    exact List.drop_left' (by simp)
  have hd16 : (Msg0200.encodeBody m).drop 16 =
      [m.Altitude / 2 ^ 8 % 256, m.Altitude % 256] ++
      ([m.Speed / 2 ^ 8 % 256, m.Speed % 256] ++
      ([m.Direction / 2 ^ 8 % 256, m.Direction % 256] ++
      (writeBCDAux m.Time.data ++
        ((m.AttachData.map Prod.fst).mergeSort (fun a b => a ≤ b)).flatMap
          (tlvIdBytes m.AttachData)))) := by
    rw [show (16 : Nat) = 12 + 4 from by norm_num, ← List.drop_drop, hd12]
    exact List.drop_left' (by simp)
  have hd18 : (Msg0200.encodeBody m).drop 18 =
      [m.Speed / 2 ^ 8 % 256, m.Speed % 256] ++
      ([m.Direction / 2 ^ 8 % 256, m.Direction % 256] ++
      (writeBCDAux m.Time.data ++
        ((m.AttachData.map Prod.fst).mergeSort (fun a b => a ≤ b)).flatMap
          (tlvIdBytes m.AttachData))) := by
    rw [show (18 : Nat) = 16 + 2 from by norm_num, ← List.drop_drop, hd16]
    exact List.drop_left' (by simp)
  have hd20 : (Msg0200.encodeBody m).drop 20 =
      [m.Direction / 2 ^ 8 % 256, m.Direction % 256] ++
      (writeBCDAux m.Time.data ++
        ((m.AttachData.map Prod.fst).mergeSort (fun a b => a ≤ b)).flatMap
          (tlvIdBytes m.AttachData)) := by
    rw [show (20 : Nat) = 18 + 2 from by norm_num, ← List.drop_drop, hd18]
    exact List.drop_left' (by simp)
  have hd22 : (Msg0200.encodeBody m).drop 22 =
      writeBCDAux m.Time.data ++
        ((m.AttachData.map Prod.fst).mergeSort (fun a b => a ≤ b)).flatMap
          (tlvIdBytes m.AttachData) := by
    rw [show (22 : Nat) = 20 + 2 from by norm_num, ← List.drop_drop, hd20]
    exact List.drop_left' (by simp)
  have hd28 : (Msg0200.encodeBody m).drop 28 =
      ((m.AttachData.map Prod.fst).mergeSort (fun a b => a ≤ b)).flatMap
        (tlvIdBytes m.AttachData) := by
    rw [show (28 : Nat) = 22 + 6 from by norm_num, ← List.drop_drop, hd22]
    exact List.drop_left' hTlen
  have ht0 : (Msg0200.encodeBody m).take 4 =
      [m.AlarmSign / 2 ^ 24 % 256, m.AlarmSign / 2 ^ 16 % 256,
        m.AlarmSign / 2 ^ 8 % 256, m.AlarmSign % 256] := by
    rw [hbody]
    exact List.take_left' (by simp)
  have ht4 : ((Msg0200.encodeBody m).drop 4).take 4 =
      [m.StatusSign / 2 ^ 24 % 256, m.StatusSign / 2 ^ 16 % 256,
        m.StatusSign / 2 ^ 8 % 256, m.StatusSign % 256] := by
    rw [hd4]
    exact List.take_left' (by simp)
  have ht8 : ((Msg0200.encodeBody m).drop 8).take 4 =
      [m.Latitude / 2 ^ 24 % 256, m.Latitude / 2 ^ 16 % 256,
        m.Latitude / 2 ^ 8 % 256, m.Latitude % 256] := by
    rw [hd8]
    exact List.take_left' (by simp)
  have ht12 : ((Msg0200.encodeBody m).drop 12).take 4 =
      [m.Longitude / 2 ^ 24 % 256, m.Longitude / 2 ^ 16 % 256,
        m.Longitude / 2 ^ 8 % 256, m.Longitude % 256] := by
    rw [hd12]
    exact List.take_left' (by simp)
  have ht16 : ((Msg0200.encodeBody m).drop 16).take 2 =
      [m.Altitude / 2 ^ 8 % 256, m.Altitude % 256] := by
    rw [hd16]
    exact List.take_left' (by simp)
  have ht18 : ((Msg0200.encodeBody m).drop 18).take 2 =
      [m.Speed / 2 ^ 8 % 256, m.Speed % 256] := by
    rw [hd18]
    exact List.take_left' (by simp)
  have ht20 : ((Msg0200.encodeBody m).drop 20).take 2 =
      [m.Direction / 2 ^ 8 % 256, m.Direction % 256] := by
    rw [hd20]
    exact List.take_left' (by simp)
  have htT : ((Msg0200.encodeBody m).drop 22).take 6 = writeBCDAux m.Time.data := by
    rw [hd22]
    exact List.take_left' hTlen
  have hblen : ¬ (Msg0200.encodeBody m).length < 28 := by
    rw [hbody]
    simp only [List.length_append, List.length_cons, List.length_nil, hTlen]
    omega
  refine ⟨⟨m.AlarmSign, m.StatusSign, m.Latitude, m.Longitude, m.Altitude,
    m.Speed, m.Direction, m.Time, entries2⟩, ?_, rfl, rfl, rfl, rfl, rfl, rfl,
    rfl, rfl, hmapEq, hsorted⟩
  unfold Msg0200.decode
  rw [if_neg hblen, hd28, hparse]
  rw [ht0, ht4, ht8, ht12, ht16, ht18, ht20, htT]
  rw [beVal_writeDW m.AlarmSign halarm, beVal_writeDW m.StatusSign hstatus,
    beVal_writeDW m.Latitude hlat, beVal_writeDW m.Longitude hlon,
    beVal_writeW m.Altitude halt, beVal_writeW m.Speed hspeed,
    beVal_writeW m.Direction hdir,
    readBCD_writeBCDAux m.Time htimedig (by rw [htimelen])]

/-- A concrete report for the C5 witness; the attachment tags are inserted
in descending order (0x31 before 0x04) to exercise the sort. -/
def m1 : Msg0200 where
  AlarmSign := 1
  StatusSign := 3
  Latitude := 31230000
  Longitude := 121470000
  Altitude := 10
  Speed := 300
  Direction := 90
  Time := "240101120000"
  AttachData := [(0x31, [5]), (0x04, [1, 80])]

/-- C5 witness: the hypotheses hold at `m1` and the theorem applies. -/
theorem msg0200_roundtrip_witness :
    m1.Time.data.length = 12 ∧
    ∃ m2, Msg0200.decode (Msg0200.encodeBody m1) = .ok m2 :=
  ⟨by decide,
    (msg0200_roundtrip m1 (by decide) (by decide) (by decide) (by decide)
        (by decide) (by decide) (by decide) (by decide) (by decide) (by decide)
        (by decide)).imp (fun _ h => h.1)⟩

end JT808
